import Mathlib

/-!
Verification development for the FINANCE-ASSISTANT-GUI repository.

The development shallowly embeds the two source files:

* `src/utils/export_data.py` — the function `export_transactions`, which
  serializes a list of transaction records (Python dicts) to a CSV file and
  translates I/O exceptions into `(success, message)` pairs.
* `src/ui/settings_panel.py` — the method `SettingsPanel.toggle_theme`, which
  flips the theme between "Light" and "Dark", persists it to the settings
  record, and updates the UI state.

File-system effects are modelled by a parameter `fs : String → OpenOutcome`
giving, for each path, the outcome of `open(path, "w")` together with the
subsequent writes (success, `FileNotFoundError`, `PermissionError`, or any
other raised exception with its class name and message).  `datetime.now()` is
modelled by an explicit `DateTime` argument.  Python exceptions are modelled
as explicit outcome branches, so totality of the Lean function expresses that
the Python function never propagates an exception.
-/

/-- A transaction record: a Python dict as an insertion-ordered association
list from field names to string values. -/
abbrev Record := List (String × String)

/-- Outcome of opening the target file for writing (and writing to it):
models the exception behaviour of the `with open(file_path, "w") ...` block
of `export_transactions`. -/
inductive OpenOutcome where
  | ok : OpenOutcome
  | fileNotFound : OpenOutcome
  | permissionDenied : OpenOutcome
  | raisedOther (name msg : String) : OpenOutcome
deriving DecidableEq, Repr

/-- A wall-clock instant, modelling `datetime.now()`. -/
structure DateTime where
  year : Nat
  month : Nat
  day : Nat
  hour : Nat
  minute : Nat
  second : Nat
deriving DecidableEq, Repr

/-- The decimal digit character of `n % 10`. -/
def digitChar10 (n : Nat) : Char := Char.ofNat (48 + n % 10)

/-- Zero-padded two-digit decimal rendering, as `strftime` does for
`%m`, `%d`, `%H`, `%M`, `%S` on in-range values. -/
def pad2 (n : Nat) : String := String.mk [digitChar10 (n / 10), digitChar10 n]

/-- Zero-padded four-digit decimal rendering, as CPython `strftime` does for
`%Y` on in-range years. -/
def pad4 (n : Nat) : String :=
  String.mk [digitChar10 (n / 1000), digitChar10 (n / 100), digitChar10 (n / 10), digitChar10 n]

/-- `datetime.now().strftime("%Y%m%d_%H%M%S")`. -/
def strftimeTs (t : DateTime) : String :=
  pad4 t.year ++ pad2 t.month ++ pad2 t.day ++ "_" ++ pad2 t.hour ++ pad2 t.minute ++ pad2 t.second

/-- `f"transactions_export_{timestamp}.csv"`. -/
def timestampName (ts : String) : String :=
  "transactions_export_" ++ ts ++ ".csv"

/-- The path actually used: the given one, unless it is falsy (`None` or the
empty string), in which case the timestamped default is generated
(`if not file_path:` in the source). -/
def effectivePath (now : DateTime) (file_path : Option String) : String :=
  match file_path with
  | none => timestampName (strftimeTs now)
  | some p => if p = "" then timestampName (strftimeTs now) else p

/-- Whether `csv` (default dialect, `QUOTE_MINIMAL`) must quote this field:
it contains the delimiter, the quote character, or a line-terminator
character. -/
def needsQuote (s : String) : Bool :=
  s.toList.any (fun c => c = ',' || c = '\"' || c = '\r' || c = '\n')

/-- Double every quote character, as the `csv` writer escapes quotes. -/
def escapeQuotes (s : String) : String :=
  String.mk (s.toList.flatMap (fun c => if c = '\"' then ['\"', '\"'] else [c]))

/-- Serialize one CSV field under the default dialect (`QUOTE_MINIMAL`). -/
def csvCell (s : String) : String :=
  if needsQuote s then "\"" ++ escapeQuotes s ++ "\"" else s

/-- Value of field `f` in record `r`: the stored value, or the `DictWriter`
default `restval` rendered as the empty string when the key is absent. -/
def lookupField (r : Record) (f : String) : String :=
  match r.lookup f with
  | some v => v
  | none => ""

/-- One CSV line for record `r` under the given field names, as written by
`csv.DictWriter.writerow`. -/
def csvRow (fieldnames : List String) (r : Record) : String :=
  String.intercalate "," (fieldnames.map (fun f => csvCell (lookupField r f)))

/-- The header line written by `csv.DictWriter.writeheader`: the field names
themselves serialized as a row. -/
def headerLine (fieldnames : List String) : String :=
  String.intercalate "," (fieldnames.map csvCell)

/-- `DictWriter` accepts a record iff it has no key outside `fieldnames`
(`extrasaction="raise"` is the default). -/
def rowOk (fieldnames : List String) (r : Record) : Bool :=
  r.all (fun kv => fieldnames.contains kv.fst)

/-- The keys of `r` that are not in `fieldnames`. -/
def wrongFields (fieldnames : List String) (r : Record) : List String :=
  (r.map Prod.fst).filter (fun k => !fieldnames.contains k)

/-- The `str()` of the `ValueError` that `DictWriter` raises on a record with
extra keys. -/
def valueErrorMsg (fieldnames : List String) (r : Record) : String :=
  "dict contains fields not in fieldnames: " ++
    String.intercalate ", " ((wrongFields fieldnames r).map (fun k => "\x27" ++ k ++ "\x27"))

/-- `f"Error: The directory for '{file_path}' does not exist."` -/
def dirMissingMsg (p : String) : String :=
  "Error: The directory for \x27" ++ p ++ "\x27 does not exist."

/-- `f"Error: Permission denied to write to '{file_path}'."` -/
def permissionDeniedMsg (p : String) : String :=
  "Error: Permission denied to write to \x27" ++ p ++ "\x27."

/-- `f"Error exporting transactions: {e.__class__.__name__}: {str(e)}"` -/
def exportErrorMsg (name msg : String) : String :=
  "Error exporting transactions: " ++ name ++ ": " ++ msg

/-- The observable result of one call to `export_transactions`: the returned
`(success, message)` pair, the lines of the file left on disk (`none` when
the open itself failed, so no file was created), and the transactions list
as it stands after the call (the source never writes to it, so every return
site passes it through unchanged). -/
structure ExportResult where
  success : Bool
  message : String
  file : Option (List String)
  transactionsAfter : List Record
deriving DecidableEq, Repr

/-- Shallow embedding of `export_transactions(transactions, file_path=None)`
from `src/utils/export_data.py`.

The source: generate a timestamped filename when `file_path` is falsy; open
the path for writing; inside the `with` block return
`(False, "No transactions to export")` on an empty list, otherwise take the
field names from the first record, write the header and all rows with
`csv.DictWriter`, and return `(True, file_path)`; `except` clauses translate
`FileNotFoundError`, `PermissionError` and any other exception into
`(False, message)` pairs. -/
def export_transactions (fs : String → OpenOutcome) (now : DateTime)
    (transactions : List Record) (file_path : Option String := none) : ExportResult :=
  match fs (effectivePath now file_path) with
  | .fileNotFound => ⟨false, dirMissingMsg (effectivePath now file_path), none, transactions⟩
  | .permissionDenied => ⟨false, permissionDeniedMsg (effectivePath now file_path), none, transactions⟩
  | .raisedOther n m => ⟨false, exportErrorMsg n m, none, transactions⟩
  | .ok =>
    match transactions with
    | [] => ⟨false, "No transactions to export", some [], transactions⟩
    | t :: _ =>
      match transactions.find? (fun r => !rowOk (t.map Prod.fst) r) with
      | some bad =>
        ⟨false, exportErrorMsg "ValueError" (valueErrorMsg (t.map Prod.fst) bad),
          some (headerLine (t.map Prod.fst) ::
            (transactions.takeWhile (rowOk (t.map Prod.fst))).map (csvRow (t.map Prod.fst))),
          transactions⟩
      | none =>
        ⟨true, effectivePath now file_path,
          some (headerLine (t.map Prod.fst) :: transactions.map (csvRow (t.map Prod.fst))),
          transactions⟩

/-- The mutable state that `SettingsPanel.toggle_theme` touches: the
`theme_var` `StringVar`, the persisted `settings.theme` field, the
`customtkinter` appearance mode, and the text of the current-theme label. -/
structure PanelState where
  themeVar : String
  savedTheme : String
  appearanceMode : String
  themeLabelText : String
deriving DecidableEq, Repr

/-- Shallow embedding of `SettingsPanel.toggle_theme` from
`src/ui/settings_panel.py`:
`new_theme = "Dark" if self.theme_var.get() == "Light" else "Light"`, then
the new value is written to the `StringVar`, the appearance mode, the
persisted settings record, and the label text. -/
def toggle_theme (s : PanelState) : PanelState :=
  let new_theme := if s.themeVar = "Light" then "Dark" else "Light"
  { themeVar := new_theme
    savedTheme := new_theme
    appearanceMode := new_theme
    themeLabelText := "Current Theme: " ++ new_theme }

/-- The pure value toggle applied to the theme string. -/
def toggleValue (theme : String) : String :=
  if theme = "Light" then "Dark" else "Light"

/-- `s` matches `transactions_export_<YYYYMMDD_HHMMSS>.csv`: the literal
prefix, eight digits, an underscore, six digits, and the `.csv` suffix. -/
def matchesExportPattern (s : String) : Bool :=
  match s.toList with
  | 't' :: 'r' :: 'a' :: 'n' :: 's' :: 'a' :: 'c' :: 't' :: 'i' :: 'o' :: 'n' :: 's' ::
    '_' :: 'e' :: 'x' :: 'p' :: 'o' :: 'r' :: 't' :: '_' :: rest =>
    match rest with
    | [y1, y2, y3, y4, mo1, mo2, d1, d2, '_', h1, h2, mi1, mi2, s1, s2, '.', 'c', 's', 'v'] =>
      [y1, y2, y3, y4, mo1, mo2, d1, d2, h1, h2, mi1, mi2, s1, s2].all Char.isDigit
    | _ => false
  | _ => false

/-- A file system on which every open-for-writing succeeds. -/
def fsAllOk : String → OpenOutcome := fun _ => .ok

/-- A file system on which every open raises `FileNotFoundError`
(the parent directory of the path does not exist). -/
def fsAllMissing : String → OpenOutcome := fun _ => .fileNotFound

/-- A file system on which every open raises `PermissionError`. -/
def fsAllDenied : String → OpenOutcome := fun _ => .permissionDenied

/-- A file system on which every open raises `OSError("disk full")`. -/
def fsAllRaising : String → OpenOutcome := fun _ => .raisedOther "OSError" "disk full"

/-- A sample instant: 2024-03-07 09:05:30. -/
def sampleNow : DateTime := ⟨2024, 3, 7, 9, 5, 30⟩

/-- A sample expense record with the field names the GUI export produces. -/
def sampleRecord1 : Record :=
  [("Date", "2024-03-07"), ("Category", "Food"), ("Description", "lunch"),
   ("Amount", "12.50"), ("Type", "Expense")]

/-- A second sample record sharing the field names of `sampleRecord1`. -/
def sampleRecord2 : Record :=
  [("Date", "2024-03-08"), ("Category", "Salary"), ("Description", ""),
   ("Amount", "100.00"), ("Type", "Income")]

/-- Every decimal digit character is a digit. -/
theorem digitChar10_isDigit (n : Nat) : (digitChar10 n).isDigit = true := by
  have h : n % 10 < 10 := Nat.mod_lt _ (by decide)
  have hfin : ∀ i : Fin 10, (Char.ofNat (48 + i.val)).isDigit = true := by decide
  simpa [digitChar10] using hfin ⟨n % 10, h⟩

/-- The generated default filename always matches
`transactions_export_<YYYYMMDD_HHMMSS>.csv`. -/
theorem timestampName_matches (t : DateTime) :
    matchesExportPattern (timestampName (strftimeTs t)) = true := by
  show ([digitChar10 (t.year / 1000), digitChar10 (t.year / 100), digitChar10 (t.year / 10),
      digitChar10 t.year, digitChar10 (t.month / 10), digitChar10 t.month,
      digitChar10 (t.day / 10), digitChar10 t.day, digitChar10 (t.hour / 10),
      digitChar10 t.hour, digitChar10 (t.minute / 10), digitChar10 t.minute,
      digitChar10 (t.second / 10), digitChar10 t.second].all Char.isDigit) = true
  simp [digitChar10_isDigit]

/-- The directory-missing message is never the empty string. -/
theorem dirMissingMsg_ne_empty (p : String) : dirMissingMsg p ≠ "" := by
  intro he
  have hl := congrArg String.length he
  simp only [dirMissingMsg, String.length_append] at hl
  rw [show ("Error: The directory for \x27").length = 26 from rfl,
    show ("\x27 does not exist.").length = 17 from rfl,
    show ("" : String).length = 0 from rfl] at hl
  omega

/-- The permission-denied message is never the empty string. -/
theorem permissionDeniedMsg_ne_empty (p : String) : permissionDeniedMsg p ≠ "" := by
  intro he
  have hl := congrArg String.length he
  simp only [permissionDeniedMsg, String.length_append] at hl
  rw [show ("Error: Permission denied to write to \x27").length = 38 from rfl,
    show ("\x27.").length = 2 from rfl,
    show ("" : String).length = 0 from rfl] at hl
  omega

/-- The catch-all exception message is never the empty string. -/
theorem exportErrorMsg_ne_empty (n m : String) : exportErrorMsg n m ≠ "" := by
  intro he
  have hl := congrArg String.length he
  simp only [exportErrorMsg, String.length_append] at hl
  rw [show ("Error exporting transactions: ").length = 30 from rfl,
    show (": ").length = 2 from rfl,
    show ("" : String).length = 0 from rfl] at hl
  omega

/-- C1: exporting a non-empty list of records that all draw their keys from
the first record, to a path that opens successfully, writes a file whose
lines are exactly the header line (the first record's field names) followed
by one CSV line per record in list order — `N + 1` lines in total — and
returns `(True, file_path)`. -/
theorem export_writes_header_and_rows (fs : String → OpenOutcome) (now : DateTime)
    (t0 : Record) (rest : List Record) (file_path : Option String)
    (hok : fs (effectivePath now file_path) = .ok)
    (hkeys : ∀ r ∈ t0 :: rest, ∀ k ∈ r.map Prod.fst, k ∈ t0.map Prod.fst) :
    export_transactions fs now (t0 :: rest) file_path =
      ⟨true, effectivePath now file_path,
        some (headerLine (t0.map Prod.fst) :: (t0 :: rest).map (csvRow (t0.map Prod.fst))),
        t0 :: rest⟩ ∧
    ((export_transactions fs now (t0 :: rest) file_path).file.getD []).length =
      (t0 :: rest).length + 1 := by
  have hfind : (t0 :: rest).find? (fun r => !rowOk (t0.map Prod.fst) r) = none := by
    refine List.find?_eq_none.mpr (fun r hr => ?_)
    suffices h : rowOk (t0.map Prod.fst) r = true by simp [h]
    refine List.all_eq_true.mpr (fun kv hkv => ?_)
    have : kv.fst ∈ t0.map Prod.fst :=
      hkeys r hr kv.fst (List.mem_map_of_mem Prod.fst hkv)
    simpa using this
  unfold export_transactions
  simp only [hok, hfind]
  refine ⟨trivial, ?_⟩
  simp

/-- Witness for C1: exporting two five-field records yields success and a
three-line file. -/
theorem export_writes_header_and_rows_w :
    export_transactions fsAllOk sampleNow [sampleRecord1, sampleRecord2] (some "out.csv") =
      ⟨true, effectivePath sampleNow (some "out.csv"),
        some (headerLine (sampleRecord1.map Prod.fst) ::
          [sampleRecord1, sampleRecord2].map (csvRow (sampleRecord1.map Prod.fst))),
        [sampleRecord1, sampleRecord2]⟩ ∧
    ((export_transactions fsAllOk sampleNow [sampleRecord1, sampleRecord2]
        (some "out.csv")).file.getD []).length = 3 :=
  export_writes_header_and_rows fsAllOk sampleNow sampleRecord1 [sampleRecord2]
    (some "out.csv") rfl (by decide)

/-- C2: `export_transactions` is a total function into `(success, message)`
pairs: every call either succeeds with the effective path as message, or
fails with `success = False` and a non-empty message; in particular a path
whose directory does not exist yields a failure value, not an exception. -/
theorem export_never_raises (fs : String → OpenOutcome) (now : DateTime)
    (transactions : List Record) (file_path : Option String) :
    ((export_transactions fs now transactions file_path).success = true ∧
       (export_transactions fs now transactions file_path).message =
         effectivePath now file_path ∨
     (export_transactions fs now transactions file_path).success = false ∧
       (export_transactions fs now transactions file_path).message ≠ "") ∧
    (fs (effectivePath now file_path) = .fileNotFound →
      (export_transactions fs now transactions file_path).success = false ∧
      (export_transactions fs now transactions file_path).message ≠ "") := by
  constructor
  · unfold export_transactions
    cases hfs : fs (effectivePath now file_path) <;> simp only [hfs]
    case ok =>
      cases transactions with
      | nil =>
        refine Or.inr ⟨rfl, ?_⟩
        show ("No transactions to export" : String) ≠ ""
        decide
      | cons t rest =>
        cases hfind : (t :: rest).find? (fun r => !rowOk (t.map Prod.fst) r) <;>
          simp only [hfind]
        case none => exact Or.inl ⟨trivial, trivial⟩
        case some bad => exact Or.inr ⟨trivial, exportErrorMsg_ne_empty _ _⟩
    case fileNotFound => exact Or.inr ⟨trivial, dirMissingMsg_ne_empty _⟩
    case permissionDenied => exact Or.inr ⟨trivial, permissionDeniedMsg_ne_empty _⟩
    case raisedOther n m => exact Or.inr ⟨trivial, exportErrorMsg_ne_empty _ _⟩
  · intro h
    unfold export_transactions
    simp only [h]
    exact ⟨trivial, dirMissingMsg_ne_empty _⟩

/-- Witness for C2: exporting to a path in a missing directory returns a
failure flag and a non-empty message. -/
theorem export_never_raises_w :
    (export_transactions fsAllMissing sampleNow [sampleRecord1]
      (some "sub/out.csv")).success = false ∧
    (export_transactions fsAllMissing sampleNow [sampleRecord1]
      (some "sub/out.csv")).message ≠ "" :=
  (export_never_raises fsAllMissing sampleNow [sampleRecord1] (some "sub/out.csv")).2 rfl

/-- C3: the three failure kinds are distinguished by the returned message:
`FileNotFoundError` yields the directory-missing text naming the path,
`PermissionError` yields the permission-denied text naming the path, and any
other exception yields a message carrying its class name and `str()` text. -/
theorem export_failure_messages (fs : String → OpenOutcome) (now : DateTime)
    (transactions : List Record) (file_path : Option String) :
    (fs (effectivePath now file_path) = .fileNotFound →
      (export_transactions fs now transactions file_path).success = false ∧
      (export_transactions fs now transactions file_path).message =
        "Error: The directory for \x27" ++ effectivePath now file_path ++
          "\x27 does not exist.") ∧
    (fs (effectivePath now file_path) = .permissionDenied →
      (export_transactions fs now transactions file_path).success = false ∧
      (export_transactions fs now transactions file_path).message =
        "Error: Permission denied to write to \x27" ++ effectivePath now file_path ++
          "\x27.") ∧
    (∀ name msg, fs (effectivePath now file_path) = .raisedOther name msg →
      (export_transactions fs now transactions file_path).success = false ∧
      (export_transactions fs now transactions file_path).message =
        "Error exporting transactions: " ++ name ++ ": " ++ msg) := by
  refine ⟨fun h => ?_, fun h => ?_, fun name msg h => ?_⟩ <;>
    · unfold export_transactions
      simp only [h]
      exact ⟨trivial, rfl⟩

/-- Witness for C3: the three failure kinds at concrete paths produce the
three concrete messages. -/
theorem export_failure_messages_w :
    (export_transactions fsAllMissing sampleNow [sampleRecord1]
      (some "sub/out.csv")).message =
      "Error: The directory for \x27sub/out.csv\x27 does not exist." ∧
    (export_transactions fsAllDenied sampleNow [sampleRecord1]
      (some "out.csv")).message =
      "Error: Permission denied to write to \x27out.csv\x27." ∧
    (export_transactions fsAllRaising sampleNow [sampleRecord1]
      (some "out.csv")).message =
      "Error exporting transactions: OSError: disk full" :=
  ⟨((export_failure_messages fsAllMissing sampleNow [sampleRecord1]
      (some "sub/out.csv")).1 rfl).2.trans (by decide),
   ((export_failure_messages fsAllDenied sampleNow [sampleRecord1]
      (some "out.csv")).2.1 rfl).2.trans (by decide),
   ((export_failure_messages fsAllRaising sampleNow [sampleRecord1]
      (some "out.csv")).2.2 "OSError" "disk full" rfl).2.trans (by decide)⟩

/-- C4: exporting an empty transactions list to a path that opens
successfully returns `(False, "No transactions to export")`. -/
theorem export_empty_returns_failure (fs : String → OpenOutcome) (now : DateTime)
    (file_path : Option String)
    (hok : fs (effectivePath now file_path) = .ok) :
    export_transactions fs now [] file_path =
      ⟨false, "No transactions to export", some [], []⟩ := by
  unfold export_transactions
  rw [hok]

/-- Witness for C4: exporting an empty list to a writable path fails with
the no-transactions message. -/
theorem export_empty_returns_failure_w :
    export_transactions fsAllOk sampleNow [] (some "out.csv") =
      ⟨false, "No transactions to export", some [], []⟩ :=
  export_empty_returns_failure fsAllOk sampleNow (some "out.csv") rfl

/-- C5: with no file path given, the effective filename is
`transactions_export_<strftime("%Y%m%d_%H%M%S")>.csv`, it matches the
`transactions_export_<YYYYMMDD_HHMMSS>.csv` pattern (eight digits, an
underscore, six digits), and a successful call returns exactly that
filename. -/
theorem export_default_filename (fs : String → OpenOutcome) (now : DateTime)
    (transactions : List Record) :
    effectivePath now none = timestampName (strftimeTs now) ∧
    matchesExportPattern (effectivePath now none) = true ∧
    ((export_transactions fs now transactions none).success = true →
      (export_transactions fs now transactions none).message =
        timestampName (strftimeTs now)) := by
  refine ⟨rfl, timestampName_matches now, fun hsucc => ?_⟩
  unfold export_transactions at hsucc ⊢
  cases hfs : fs (effectivePath now none) <;> simp only [hfs] at hsucc ⊢
  case fileNotFound => exact Bool.noConfusion hsucc
  case permissionDenied => exact Bool.noConfusion hsucc
  case raisedOther n m => exact Bool.noConfusion hsucc
  case ok =>
    cases transactions with
    | nil => simp at hsucc
    | cons t rest =>
      cases hfind : (t :: rest).find? (fun r => !rowOk (t.map Prod.fst) r) <;>
        simp only [hfind] at hsucc ⊢
      case none => rfl
      case some bad => simp at hsucc

/-- Witness for C5: at the sample instant the default filename is
`transactions_export_20240307_090530.csv` and a successful export returns
it. -/
theorem export_default_filename_w :
    effectivePath sampleNow none = "transactions_export_20240307_090530.csv" ∧
    matchesExportPattern (effectivePath sampleNow none) = true ∧
    (export_transactions fsAllOk sampleNow [sampleRecord1] none).message =
      "transactions_export_20240307_090530.csv" :=
  have h := export_default_filename fsAllOk sampleNow [sampleRecord1]
  ⟨h.1.trans (by decide), h.2.1, (h.2.2 (by decide)).trans (by decide)⟩

/-- C6: from a theme in {"Light", "Dark"}, `toggle_theme` switches to the
other theme, persists the new value to the settings record, and a second
toggle restores the original theme. -/
theorem toggle_theme_involution (s : PanelState)
    (h : s.themeVar = "Light" ∨ s.themeVar = "Dark") :
    ((s.themeVar = "Light" → (toggle_theme s).themeVar = "Dark") ∧
     (s.themeVar = "Dark" → (toggle_theme s).themeVar = "Light")) ∧
    (toggle_theme s).savedTheme = (toggle_theme s).themeVar ∧
    (toggle_theme (toggle_theme s)).themeVar = s.themeVar := by
  rcases h with h | h <;> simp [toggle_theme, h]

/-- Witness for C6: starting from "Light", one toggle gives "Dark" and a
second toggle gives "Light" again. -/
theorem toggle_theme_involution_w :
    (toggle_theme ⟨"Light", "Light", "Light", "Current Theme: Light"⟩).themeVar = "Dark" ∧
    (toggle_theme
      (toggle_theme ⟨"Light", "Light", "Light", "Current Theme: Light"⟩)).themeVar = "Light" :=
  have h := toggle_theme_involution ⟨"Light", "Light", "Light", "Current Theme: Light"⟩
    (Or.inl rfl)
  ⟨h.1.1 rfl, h.2.2⟩

/-- C7: `export_transactions` never modifies its transactions argument: on
every success and failure path the list after the call is the list that was
passed in. -/
theorem export_preserves_transactions (fs : String → OpenOutcome) (now : DateTime)
    (transactions : List Record) (file_path : Option String) :
    (export_transactions fs now transactions file_path).transactionsAfter =
      transactions := by
  unfold export_transactions
  (repeat' split) <;> rfl

/-- C8: the file is opened for writing before the empty-list check: an empty
export to a writable path leaves an empty (truncated) file behind while
still returning failure, and an empty export to a path in a missing
directory reports the directory-missing message, not the no-transactions
message. -/
theorem export_opens_before_empty_check (fsW fsM : String → OpenOutcome) (now : DateTime)
    (file_path : Option String)
    (hok : fsW (effectivePath now file_path) = .ok)
    (hmiss : fsM (effectivePath now file_path) = .fileNotFound) :
    (export_transactions fsW now [] file_path).file = some [] ∧
    (export_transactions fsW now [] file_path).success = false ∧
    (export_transactions fsM now [] file_path).message =
      dirMissingMsg (effectivePath now file_path) ∧
    (export_transactions fsM now [] file_path).message ≠ "No transactions to export" := by
  unfold export_transactions
  rw [hok, hmiss]
  refine ⟨rfl, rfl, rfl, fun h => ?_⟩
  have hl := congrArg String.length h
  simp only [dirMissingMsg, String.length_append] at hl
  rw [show ("Error: The directory for \x27").length = 26 from rfl,
    show ("\x27 does not exist.").length = 17 from rfl,
    show ("No transactions to export").length = 25 from rfl] at hl
  omega

/-- Witness for C8: an empty export to a writable path leaves an empty file
and fails, and to a missing directory it reports the directory error. -/
theorem export_opens_before_empty_check_w :
    (export_transactions fsAllOk sampleNow [] (some "sub/out.csv")).file = some [] ∧
    (export_transactions fsAllOk sampleNow [] (some "sub/out.csv")).success = false ∧
    (export_transactions fsAllMissing sampleNow [] (some "sub/out.csv")).message =
      dirMissingMsg "sub/out.csv" ∧
    (export_transactions fsAllMissing sampleNow [] (some "sub/out.csv")).message ≠
      "No transactions to export" :=
  export_opens_before_empty_check fsAllOk fsAllMissing sampleNow (some "sub/out.csv") rfl rfl

/-- C9: passing the empty string as the file path behaves exactly like
omitting it: the truthiness check sends both to the generated timestamped
filename. -/
theorem export_empty_path_eq_none (fs : String → OpenOutcome) (now : DateTime)
    (transactions : List Record) :
    export_transactions fs now transactions (some "") =
      export_transactions fs now transactions none := rfl

/-- C10: after any toggle the persisted theme is in {"Light", "Dark"} and
equals the new `theme_var` value: exactly "Light" maps to "Dark", and every
other prior value (including malformed ones) maps to "Light". -/
theorem toggle_theme_range (s : PanelState) :
    ((toggle_theme s).savedTheme = "Light" ∨ (toggle_theme s).savedTheme = "Dark") ∧
    (toggle_theme s).savedTheme = (toggle_theme s).themeVar ∧
    (s.themeVar = "Light" → (toggle_theme s).savedTheme = "Dark") ∧
    (s.themeVar ≠ "Light" → (toggle_theme s).savedTheme = "Light") := by
  by_cases h : s.themeVar = "Light" <;> simp [toggle_theme, h]

/-- Witness for C10: the malformed theme "light" is normalised to "Light",
and "Light" toggles to "Dark". -/
theorem toggle_theme_range_w :
    (toggle_theme ⟨"light", "light", "light", "x"⟩).savedTheme = "Light" ∧
    (toggle_theme ⟨"Light", "Light", "Light", "x"⟩).savedTheme = "Dark" :=
  have h1 := toggle_theme_range ⟨"light", "light", "light", "x"⟩
  have h2 := toggle_theme_range ⟨"Light", "Light", "Light", "x"⟩
  ⟨h1.2.2.2 (by decide), h2.2.2.1 rfl⟩
